import Mathlib

/-!
Shallow embedding of the AI chatbot with Redis caching service
(app/config.py, app/cache.py, app/ai_engine.py, app/main.py).

Modelling choices, stated once:
  - The Redis server state is a connection flag plus an association list
    from key to (raw serialized value, ttl in seconds).  Wall-clock time is
    not modelled: entries carry the ttl they were stored with, and
    consecutive operations are understood to happen before any expiry.
  - Values this program stores are always strings (the response text), so
    json.dumps / json.loads are embedded for string payloads only:
    jsonDumps quotes the string and escapes the quote and backslash
    characters exactly as json.dumps does for such payloads, and jsonLoads
    parses exactly that grammar, returning none on anything else (the
    JSONDecodeError branch of cache.py).
  - Exceptions raised by the redis client or by the response generator are
    modelled by explicit Boolean failure flags threaded into each
    operation (a Behavior record per request): a raised exception
    corresponds to the flag being true, and the embedded function returns
    whatever the except-branch of the source returns.
  - chat_endpoint returns a ChatStep that also counts generator calls and
    store operations, so that claims about which collaborators were
    invoked are statable.  The response_time and timestamp fields of the
    HTTP payload are wall-clock measurements and are not modelled.
  - Pydantic validation of the request body (query: min_length 1,
    max_length 1000, checked on the raw, untrimmed query) runs before the
    handler body and yields HTTP 422 on violation; this is embedded as the
    first branch of chat_endpoint.
-/

/-! Embedding of app/config.py (Settings). -/

/-- Settings.CACHE_EXPIRATION default: 600 seconds. -/
def CACHE_EXPIRATION : Nat := 600

/-! Embedding of json.dumps and json.loads for string payloads. -/

/-- Escape the quote and backslash characters, as json.dumps does inside a
string literal payload. -/
def escChars : List Char → List Char
  | [] => []
  | c :: rest =>
    if c = '"' ∨ c = '\\' then '\\' :: c :: escChars rest
    else c :: escChars rest

/-- Undo escChars; none on an invalid escape, a bare interior quote, or a
trailing backslash (the inputs json.loads rejects). -/
def unescChars : List Char → Option (List Char)
  | [] => some []
  | c :: rest =>
    if c = '\\' then
      match rest with
      | [] => none
      | c2 :: rest2 =>
        if c2 = '"' ∨ c2 = '\\' then (unescChars rest2).map (fun l => c2 :: l)
        else none
    else if c = '"' then none
    else (unescChars rest).map (fun l => c :: l)

/-- json.dumps restricted to string payloads: a quoted, escaped literal. -/
def jsonDumps (s : String) : String :=
  String.mk ('"' :: (escChars s.data ++ ['"']))

/-- json.loads restricted to string payloads: parses exactly the literals
jsonDumps produces; none models the JSONDecodeError branch. -/
def jsonLoads (raw : String) : Option String :=
  if raw.data.head? = some '"' ∧ raw.data.tail ≠ [] ∧
      raw.data.tail.getLast? = some '"' then
    (unescChars raw.data.tail.dropLast).map String.mk
  else none

theorem unescChars_cons (c : Char) (rest : List Char) :
    unescChars (c :: rest) =
      if c = '\\' then
        match rest with
        | [] => none
        | c2 :: rest2 =>
          if c2 = '"' ∨ c2 = '\\' then (unescChars rest2).map (fun l => c2 :: l)
          else none
      else if c = '"' then none
      else (unescChars rest).map (fun l => c :: l) := by
  cases rest <;> rfl

theorem unescChars_escChars (l : List Char) :
    unescChars (escChars l) = some l := by
  induction l with
  | nil => rfl
  | cons c rest ih =>
      by_cases h : c = '"' ∨ c = '\\'
      · simp [escChars, h, unescChars_cons, ih]
      · push_neg at h
        simp [escChars, h, unescChars_cons, h.1, h.2, ih]

theorem jsonLoads_jsonDumps (s : String) :
    jsonLoads (jsonDumps s) = some s := by
  obtain ⟨d⟩ := s
  have hdata : (jsonDumps ⟨d⟩).data = '"' :: (escChars d ++ ['"']) := rfl
  have hcond : (jsonDumps ⟨d⟩).data.head? = some '"' ∧
      (jsonDumps ⟨d⟩).data.tail ≠ [] ∧
      (jsonDumps ⟨d⟩).data.tail.getLast? = some '"' := by
    rw [hdata]
    exact ⟨rfl, by simp, by simp [List.getLast?_concat]⟩
  rw [jsonLoads, if_pos hcond, hdata, List.tail_cons, List.dropLast_concat,
    unescChars_escChars]
  rfl

theorem jsonDumps_ne_empty (s : String) : jsonDumps s ≠ "" := by
  intro h
  have hdata : (jsonDumps s).data = [] := by rw [h]
  simp [jsonDumps] at hdata

/-! Embedding of app/cache.py (class RedisCache).  The Redis server content
is an association list; the first matching entry is the binding. -/

/-- State of the Redis client plus the server content it talks to.
connected = false is the state after a failed _connect (redis_client is
None); nothing in the source ever reconnects. -/
structure RedisState where
  connected : Bool
  entries : List (String × String × Nat)
deriving DecidableEq

/-- Raw value and remaining ttl stored under a key, if any. -/
def redisEntry (entries : List (String × String × Nat)) (key : String) :
    Option (String × Nat) :=
  match entries.find? (fun e => e.1 == key) with
  | some e => some e.2
  | none => none

/-- Raw value stored under a key, if any (what redis GET returns). -/
def redisLookup (entries : List (String × String × Nat)) (key : String) :
    Option String :=
  (redisEntry entries key).map (fun p => p.1)

/-- Remove every binding of a key (redis DEL / SETEX overwrite). -/
def eraseKey (entries : List (String × String × Nat)) (key : String) :
    List (String × String × Nat) :=
  entries.filter (fun e => e.1 != key)

/-- RedisCache.get: None when the client is unavailable; a redis error or a
json decode failure is caught and yields None; a falsy raw value (empty
string) is treated as a miss before decoding. -/
def RedisCache.get (st : RedisState) (key : String) (redisFails : Bool) :
    Option String :=
  if st.connected = false then none
  else if redisFails = true then none
  else
    match redisLookup st.entries key with
    | some raw => if raw = "" then none else jsonLoads raw
    | none => none

/-- RedisCache.set: False when the client is unavailable or the setex call
raises; otherwise stores the serialized value with the requested (or
default) expiration and returns True. -/
def RedisCache.set (st : RedisState) (key value : String)
    (expiration : Option Nat) (redisFails : Bool) : RedisState × Bool :=
  if st.connected = false then (st, false)
  else
    let exp := expiration.getD CACHE_EXPIRATION
    let serialized := jsonDumps value
    if redisFails = true then (st, false)
    else (⟨st.connected, (key, serialized, exp) :: eraseKey st.entries key⟩, true)

/-- RedisCache.delete: False when unavailable or on a redis error;
otherwise removes the key and returns whether the delete count was
positive, i.e. whether the key existed. -/
def RedisCache.delete (st : RedisState) (key : String) (redisFails : Bool) :
    RedisState × Bool :=
  if st.connected = false then (st, false)
  else if redisFails = true then (st, false)
  else (⟨st.connected, eraseKey st.entries key⟩, (redisLookup st.entries key).isSome)

/-- RedisCache.health_check: ping, False when unavailable or on error. -/
def RedisCache.health_check (st : RedisState) (pingFails : Bool) : Bool :=
  if st.connected = false then false
  else if pingFails = true then false
  else true

/-! Embedding of app/ai_engine.py (class AIEngine). -/

/-- AIEngine.generate_response: the mock response text built for a query. -/
def AIEngine.generate_response (query : String) : String :=
  "AI response to: " ++ query ++ ". This is a simulated response. In production, connect to actual AI services like OpenAI, Anthropic, etc."

/-- The fallback text AIEngine.get_response returns when generate_response
raises. -/
def AIEngine.fallback_response (query : String) : String :=
  "I apologize, but I encountered an error while processing your query: " ++ query

/-- AIEngine.get_response: genFails models generate_response raising; the
except branch swallows the exception and returns the fallback text. -/
def AIEngine.get_response (query : String) (genFails : Bool) : String :=
  if genFails = true then AIEngine.fallback_response query
  else AIEngine.generate_response query

/-! Embedding of app/main.py. -/

/-- The body of the ChatResponse payload, without the wall-clock fields
(response_time, timestamp). -/
structure ChatResponse where
  query : String
  response : String
  cached : Bool
deriving DecidableEq

/-- HTTP result of the chat endpoint: a payload or an HTTPException. -/
inductive ChatOutcome where
  | ok (r : ChatResponse)
  | httpError (status : Nat) (detail : String)
deriving DecidableEq

/-- Failure flags for the external effects of one request: a true flag
models the corresponding call raising in the source. -/
structure Behavior where
  redisGetFails : Bool
  redisSetFails : Bool
  redisDeleteFails : Bool
  genFails : Bool
deriving DecidableEq

/-- Result of one chat request: outcome, resulting store state, and counts
of generator calls and store get/set operations actually made. -/
structure ChatStep where
  outcome : ChatOutcome
  st : RedisState
  genCalls : Nat
  storeGets : Nat
  storeSets : Nat
deriving DecidableEq

/-- Python str whitespace test, for the ASCII whitespace characters. -/
def pyIsSpace (c : Char) : Bool :=
  c == ' ' || c == '\t' || c == '\n' || c == '\r' || c == '\x0b' || c == '\x0c'

/-- Python str.strip(): drop leading and trailing whitespace. -/
def pyStrip (s : String) : String :=
  String.mk (((s.data.dropWhile pyIsSpace).reverse.dropWhile pyIsSpace).reverse)

/-- Python str.lower(), for the ASCII letters the queries use. -/
def pyLower (s : String) : String :=
  String.mk (s.data.map Char.toLower)

/-- generate_cache_key: lower-case, strip, and add the chat namespace tag. -/
def generate_cache_key (query : String) : String :=
  "chat:" ++ pyStrip (pyLower query)

/-- chat_endpoint.  Pydantic validation of the raw query runs first (422).
Inside the handler, the HTTPException(400) raised for an empty-after-strip
query is caught by the blanket except clause of the source and re-raised
as HTTPException(500): the embedded function therefore returns 500 there.
A falsy cached value (None or empty string) takes the miss path; the miss
path generates a response (fallback included) and unconditionally attempts
to cache it. -/
def chat_endpoint (st : RedisState) (b : Behavior) (rawQuery : String) :
    ChatStep :=
  if rawQuery.length < 1 ∨ rawQuery.length > 1000 then
    ⟨.httpError 422 "validation error", st, 0, 0, 0⟩
  else
    let query := pyStrip rawQuery
    if query = "" then
      ⟨.httpError 500 "Internal server error", st, 0, 0, 0⟩
    else
      let cache_key := generate_cache_key query
      let cached_response := RedisCache.get st cache_key b.redisGetFails
      match cached_response with
      | some r =>
        if r = "" then
          let ai_response := AIEngine.get_response query b.genFails
          let afterSet := RedisCache.set st cache_key ai_response none b.redisSetFails
          ⟨.ok ⟨query, ai_response, false⟩, afterSet.1, 1, 1, 1⟩
        else
          ⟨.ok ⟨query, r, true⟩, st, 0, 1, 0⟩
      | none =>
        let ai_response := AIEngine.get_response query b.genFails
        let afterSet := RedisCache.set st cache_key ai_response none b.redisSetFails
        ⟨.ok ⟨query, ai_response, false⟩, afterSet.1, 1, 1, 1⟩

/-- HTTP result of the cache-delete endpoint. -/
inductive DeleteOutcome where
  | ok (message : String)
  | httpError (status : Nat) (detail : String)
deriving DecidableEq

/-- delete_cache endpoint: derive the key, delete it, 200 with a message
when a key was removed and 404 otherwise. -/
def delete_cache (st : RedisState) (redisFails : Bool) (query : String) :
    DeleteOutcome × RedisState :=
  let cache_key := generate_cache_key query
  let result := RedisCache.delete st cache_key redisFails
  if result.2 = true then
    (DeleteOutcome.ok ("Cache deleted for query: " ++ query), result.1)
  else
    (DeleteOutcome.httpError 404 "Query not found in cache", result.1)

/-! Helper lemmas about the store model. -/

theorem redisEntry_cons_self (k raw : String) (t : Nat)
    (es : List (String × String × Nat)) :
    redisEntry ((k, raw, t) :: es) k = some (raw, t) := by
  simp [redisEntry, List.find?]

theorem redisLookup_cons_self (k raw : String) (t : Nat)
    (es : List (String × String × Nat)) :
    redisLookup ((k, raw, t) :: es) k = some raw := by
  simp [redisLookup, redisEntry_cons_self]

theorem redisEntry_cons_ne (e : String × String × Nat) (k : String)
    (es : List (String × String × Nat)) (h : e.1 ≠ k) :
    redisEntry (e :: es) k = redisEntry es k := by
  have hb : (e.1 == k) = false := by simp [h]
  simp [redisEntry, List.find?, hb]

theorem redisEntry_eraseKey_self (es : List (String × String × Nat))
    (k : String) : redisEntry (eraseKey es k) k = none := by
  induction es with
  | nil => rfl
  | cons e rest ih =>
      rw [eraseKey, List.filter_cons]
      by_cases h : e.1 = k
      · rw [if_neg (by simp [h])]
        exact ih
      · rw [if_pos (by simp [h])]
        rw [redisEntry_cons_ne e k _ h]
        exact ih

theorem redisLookup_eraseKey_self (es : List (String × String × Nat))
    (k : String) : redisLookup (eraseKey es k) k = none := by
  simp [redisLookup, redisEntry_eraseKey_self]

theorem RedisCache.get_connected (st : RedisState) (k : String)
    (hconn : st.connected = true) :
    RedisCache.get st k false =
      match redisLookup st.entries k with
      | some raw => if raw = "" then none else jsonLoads raw
      | none => none := by
  simp [RedisCache.get, hconn]

theorem RedisCache.set_connected_ok (st : RedisState) (k v : String)
    (e : Option Nat) (hconn : st.connected = true) :
    RedisCache.set st k v e false =
      (⟨st.connected, (k, jsonDumps v, e.getD CACHE_EXPIRATION) ::
        eraseKey st.entries k⟩, true) := by
  simp [RedisCache.set, hconn]

theorem AIEngine.generate_response_ne_empty (q : String) :
    AIEngine.generate_response q ≠ "" := by
  intro h
  have hlen : (AIEngine.generate_response q).length = 0 := by rw [h]; rfl
  rw [AIEngine.generate_response] at hlen
  simp [String.length_append] at hlen
  exact absurd hlen.1.1 (by decide)

theorem AIEngine.fallback_response_ne_empty (q : String) :
    AIEngine.fallback_response q ≠ "" := by
  intro h
  have hlen : (AIEngine.fallback_response q).length = 0 := by rw [h]; rfl
  rw [AIEngine.fallback_response] at hlen
  simp [String.length_append] at hlen
  exact absurd hlen.1 (by decide)

theorem AIEngine.get_response_ne_empty (q : String) (g : Bool) :
    AIEngine.get_response q g ≠ "" := by
  rw [AIEngine.get_response]
  by_cases hg : g = true
  · simp [hg, AIEngine.fallback_response_ne_empty]
  · simp [hg, AIEngine.generate_response_ne_empty]

/-! Characterizations of the two live branches of chat_endpoint for a
valid query. -/

theorem chat_endpoint_hit (st : RedisState) (b : Behavior) (q r : String)
    (h1 : 1 ≤ q.length) (h2 : q.length ≤ 1000) (hne : pyStrip q ≠ "")
    (hget : RedisCache.get st (generate_cache_key (pyStrip q)) b.redisGetFails = some r)
    (hr : r ≠ "") :
    chat_endpoint st b q = ⟨.ok ⟨pyStrip q, r, true⟩, st, 0, 1, 0⟩ := by
  have hlen : ¬ (q.length < 1 ∨ q.length > 1000) := by omega
  simp only [chat_endpoint, if_neg hlen, if_neg hne, hget]
  simp [hr]

theorem chat_endpoint_miss (st : RedisState) (b : Behavior) (q : String)
    (h1 : 1 ≤ q.length) (h2 : q.length ≤ 1000) (hne : pyStrip q ≠ "")
    (hmiss : RedisCache.get st (generate_cache_key (pyStrip q)) b.redisGetFails = none ∨
      RedisCache.get st (generate_cache_key (pyStrip q)) b.redisGetFails = some "") :
    chat_endpoint st b q =
      ⟨.ok ⟨pyStrip q, AIEngine.get_response (pyStrip q) b.genFails, false⟩,
        (RedisCache.set st (generate_cache_key (pyStrip q))
          (AIEngine.get_response (pyStrip q) b.genFails) none b.redisSetFails).1,
        1, 1, 1⟩ := by
  have hlen : ¬ (q.length < 1 ∨ q.length > 1000) := by omega
  rcases hmiss with h | h <;>
    (simp [chat_endpoint, if_neg hlen, if_neg hne, h]; omega)

theorem RedisCache.set_connected_eq (st : RedisState) (k v : String)
    (e : Option Nat) (f : Bool) :
    (RedisCache.set st k v e f).1.connected = st.connected := by
  by_cases h1 : st.connected = false <;> by_cases h2 : f = true <;>
    simp [RedisCache.set, h1, h2]

theorem RedisCache.get_after_set (st : RedisState) (k v : String)
    (e : Option Nat) (hconn : st.connected = true) :
    RedisCache.get (RedisCache.set st k v e false).1 k false = some v := by
  rw [RedisCache.set_connected_ok st k v e hconn]
  simp [RedisCache.get, hconn, redisLookup_cons_self, jsonDumps_ne_empty,
    jsonLoads_jsonDumps]

theorem chat_hit_after_set (st : RedisState) (b : Behavior) (q v : String)
    (h1 : 1 ≤ q.length) (h2 : q.length ≤ 1000) (hne : pyStrip q ≠ "")
    (hconn : st.connected = true) (hb : b.redisGetFails = false) (hv : v ≠ "") :
    chat_endpoint (RedisCache.set st (generate_cache_key (pyStrip q)) v none false).1 b q =
      ⟨.ok ⟨pyStrip q, v, true⟩,
        (RedisCache.set st (generate_cache_key (pyStrip q)) v none false).1, 0, 1, 0⟩ := by
  apply chat_endpoint_hit _ _ _ _ h1 h2 hne _ hv
  rw [hb]
  exact RedisCache.get_after_set st _ v none hconn

theorem delete_cache_found (st : RedisState) (q : String)
    (hconn : st.connected = true)
    (hfound : redisLookup st.entries (generate_cache_key q) ≠ none) :
    delete_cache st false q =
      (DeleteOutcome.ok ("Cache deleted for query: " ++ q),
        ⟨st.connected, eraseKey st.entries (generate_cache_key q)⟩) := by
  simp [delete_cache, RedisCache.delete, hconn, Option.isSome_iff_ne_none, hfound]

theorem delete_cache_missing (st : RedisState) (q : String)
    (hconn : st.connected = true)
    (hmiss : redisLookup st.entries (generate_cache_key q) = none) :
    delete_cache st false q =
      (DeleteOutcome.httpError 404 "Query not found in cache",
        ⟨st.connected, eraseKey st.entries (generate_cache_key q)⟩) := by
  simp [delete_cache, RedisCache.delete, hconn, hmiss]

/-! Claim theorems. -/

/-- C1: for a query that is empty after stripping (the concrete failing
input is three spaces), the chat operation fails before any store or
generator call — but with HTTP 500, not 400: the blanket except clause of
chat_endpoint catches the HTTPException(400) it just raised and re-raises
it as 500.  The fully empty query is rejected even earlier by request
validation with 422.  No store operation and no generator call happen in
either case. -/
theorem chat_empty_query_rejected_as_500 (st : RedisState) (b : Behavior) :
    (chat_endpoint st b "   ").outcome = .httpError 500 "Internal server error" ∧
    (chat_endpoint st b "   ").st = st ∧
    (chat_endpoint st b "   ").genCalls = 0 ∧
    (chat_endpoint st b "   ").storeGets = 0 ∧
    (chat_endpoint st b "   ").storeSets = 0 ∧
    (chat_endpoint st b "").outcome = .httpError 422 "validation error" :=
  ⟨rfl, rfl, rfl, rfl, rfl, rfl⟩

/-- C4: key derivation is the pure total function prepending the fixed
prefix to the lower-cased, stripped query, so queries agreeing after
lower-casing and stripping share a key; in particular the three spec
examples coincide. -/
theorem derive_key_normalization (q1 q2 : String)
    (h : pyStrip (pyLower q1) = pyStrip (pyLower q2)) :
    generate_cache_key q1 = generate_cache_key q2 ∧
    generate_cache_key q1 = "chat:" ++ pyStrip (pyLower q1) ∧
    generate_cache_key " Foo " = generate_cache_key "foo" ∧
    generate_cache_key "foo" = generate_cache_key "FOO" ∧
    generate_cache_key " Foo " = "chat:foo" := by
  refine ⟨?_, rfl, rfl, rfl, rfl⟩
  rw [generate_cache_key, generate_cache_key, h]

/-- Witness for C4 at the spec inputs. -/
theorem derive_key_normalization_witness :
    generate_cache_key " Foo " = generate_cache_key "FOO" ∧
    generate_cache_key " Foo " = "chat:" ++ pyStrip (pyLower " Foo ") ∧
    generate_cache_key " Foo " = generate_cache_key "foo" ∧
    generate_cache_key "foo" = generate_cache_key "FOO" ∧
    generate_cache_key " Foo " = "chat:foo" :=
  derive_key_normalization " Foo " "FOO" (by decide)

/-- C5: with the store unavailable every store operation is a safe no-op
leaving the state unchanged (get absent, set and delete false, ping
false), and a chat call on a valid query still returns a result with
cached = false, leaving the state unchanged — for every failure behavior,
so the unavailable state persists across operations. -/
theorem store_unavailable_degraded (st : RedisState) (b : Behavior)
    (k v q : String) (e : Option Nat) (f fp : Bool)
    (hconn : st.connected = false)
    (h1 : 1 ≤ q.length) (h2 : q.length ≤ 1000) (hne : pyStrip q ≠ "") :
    RedisCache.get st k f = none ∧
    RedisCache.set st k v e f = (st, false) ∧
    RedisCache.delete st k f = (st, false) ∧
    RedisCache.health_check st fp = false ∧
    (chat_endpoint st b q).outcome =
      .ok ⟨pyStrip q, AIEngine.get_response (pyStrip q) b.genFails, false⟩ ∧
    (chat_endpoint st b q).st = st := by
  have hgetq : RedisCache.get st (generate_cache_key (pyStrip q)) b.redisGetFails = none := by
    simp [RedisCache.get, hconn]
  have hchat := chat_endpoint_miss st b q h1 h2 hne (Or.inl hgetq)
  refine ⟨by simp [RedisCache.get, hconn], by simp [RedisCache.set, hconn],
    by simp [RedisCache.delete, hconn], by simp [RedisCache.health_check, hconn],
    ?_, ?_⟩
  · rw [hchat]
  · rw [hchat]
    simp [RedisCache.set, hconn]

/-- Witness for C5: unavailable store with a leftover entry, all failure
flags set, query x. -/
theorem store_unavailable_degraded_witness :
    RedisCache.get ⟨false, [("chat:x", jsonDumps "v", 600)]⟩ "chat:x" false = none ∧
    RedisCache.set ⟨false, [("chat:x", jsonDumps "v", 600)]⟩ "chat:x" "w" none false =
      (⟨false, [("chat:x", jsonDumps "v", 600)]⟩, false) ∧
    RedisCache.delete ⟨false, [("chat:x", jsonDumps "v", 600)]⟩ "chat:x" false =
      (⟨false, [("chat:x", jsonDumps "v", 600)]⟩, false) ∧
    RedisCache.health_check ⟨false, [("chat:x", jsonDumps "v", 600)]⟩ false = false ∧
    (chat_endpoint ⟨false, [("chat:x", jsonDumps "v", 600)]⟩ ⟨false, false, false, false⟩ "x").outcome =
      .ok ⟨pyStrip "x", AIEngine.get_response (pyStrip "x") (Behavior.genFails ⟨false, false, false, false⟩), false⟩ ∧
    (chat_endpoint ⟨false, [("chat:x", jsonDumps "v", 600)]⟩ ⟨false, false, false, false⟩ "x").st =
      ⟨false, [("chat:x", jsonDumps "v", 600)]⟩ :=
  store_unavailable_degraded ⟨false, [("chat:x", jsonDumps "v", 600)]⟩
    ⟨false, false, false, false⟩ "chat:x" "w" "x" none false false rfl
    (by decide) (by decide) (by decide)

/-- C7: on a cache hit the chat operation returns the cached value as-is
with cached = true and leaves the store state exactly unchanged: no set is
performed, so no ttl refresh and no replacement. -/
theorem cache_hit_is_pure_read (st : RedisState) (b : Behavior) (q r : String)
    (h1 : 1 ≤ q.length) (h2 : q.length ≤ 1000) (hne : pyStrip q ≠ "")
    (hget : RedisCache.get st (generate_cache_key (pyStrip q)) b.redisGetFails = some r)
    (hr : r ≠ "") :
    chat_endpoint st b q = ⟨.ok ⟨pyStrip q, r, true⟩, st, 0, 1, 0⟩ :=
  chat_endpoint_hit st b q r h1 h2 hne hget hr

/-- Witness for C7: a stored response is returned as-is and the state,
including its ttl, is untouched. -/
theorem cache_hit_is_pure_read_witness :
    chat_endpoint ⟨true, [("chat:hi", jsonDumps "yo", 123)]⟩
        ⟨false, false, false, false⟩ "hi" =
      ⟨.ok ⟨pyStrip "hi", "yo", true⟩, ⟨true, [("chat:hi", jsonDumps "yo", 123)]⟩, 0, 1, 0⟩ :=
  cache_hit_is_pure_read ⟨true, [("chat:hi", jsonDumps "yo", 123)]⟩
    ⟨false, false, false, false⟩ "hi" "yo" (by decide) (by decide) (by decide)
    rfl (by decide)

/-- C2 counterexample: with the generator failing on query boom against an
empty connected store, the first chat call writes the fallback response
into the cache, and an immediately repeated identical call is a cache hit
returning the fallback with cached = true and zero generator calls —
contradicting the claim that the fallback is never cached and that the
second call goes to the generator. -/
theorem fallback_cached_counterexample :
    redisLookup (chat_endpoint ⟨true, []⟩ ⟨false, false, false, true⟩ "boom").st.entries
        (generate_cache_key "boom") =
      some (jsonDumps (AIEngine.fallback_response "boom")) ∧
    (chat_endpoint (chat_endpoint ⟨true, []⟩ ⟨false, false, false, true⟩ "boom").st
        ⟨false, false, false, true⟩ "boom").outcome =
      .ok ⟨"boom", AIEngine.fallback_response "boom", true⟩ ∧
    (chat_endpoint (chat_endpoint ⟨true, []⟩ ⟨false, false, false, true⟩ "boom").st
        ⟨false, false, false, true⟩ "boom").genCalls = 0 :=
  ⟨rfl, rfl, rfl⟩

/-- C2 amended: when the generator fails on a query, the chat operation
still returns a result whose response is the fallback text, but the
fallback IS written to the cache (when the store is connected and the
write succeeds), so an immediately repeated identical call is a cache hit
returning the cached fallback without calling the generator. -/
theorem fallback_returned_and_cached (st : RedisState) (q : String)
    (h1 : 1 ≤ q.length) (h2 : q.length ≤ 1000) (hne : pyStrip q ≠ "")
    (hconn : st.connected = true)
    (hmiss : RedisCache.get st (generate_cache_key (pyStrip q)) false = none) :
    (chat_endpoint st ⟨false, false, false, true⟩ q).outcome =
      .ok ⟨pyStrip q, AIEngine.fallback_response (pyStrip q), false⟩ ∧
    (chat_endpoint st ⟨false, false, false, true⟩ q).genCalls = 1 ∧
    redisLookup (chat_endpoint st ⟨false, false, false, true⟩ q).st.entries
        (generate_cache_key (pyStrip q)) =
      some (jsonDumps (AIEngine.fallback_response (pyStrip q))) ∧
    (chat_endpoint (chat_endpoint st ⟨false, false, false, true⟩ q).st
        ⟨false, false, false, true⟩ q).outcome =
      .ok ⟨pyStrip q, AIEngine.fallback_response (pyStrip q), true⟩ ∧
    (chat_endpoint (chat_endpoint st ⟨false, false, false, true⟩ q).st
        ⟨false, false, false, true⟩ q).genCalls = 0 := by
  have hchat := chat_endpoint_miss st ⟨false, false, false, true⟩ q h1 h2 hne (Or.inl hmiss)
  have hresp : AIEngine.get_response (pyStrip q) true = AIEngine.fallback_response (pyStrip q) := rfl
  have hhit := chat_hit_after_set st ⟨false, false, false, true⟩ q
    (AIEngine.fallback_response (pyStrip q)) h1 h2 hne hconn rfl
    (AIEngine.fallback_response_ne_empty (pyStrip q))
  rw [hchat, hresp]
  refine ⟨rfl, rfl, ?_, ?_, ?_⟩
  · rw [RedisCache.set_connected_ok st _ _ none hconn]
    exact redisLookup_cons_self _ _ _ _
  · rw [hhit]
  · rw [hhit]

/-- Witness for C2 amended at query boom against an empty connected store. -/
theorem fallback_returned_and_cached_witness :
    (chat_endpoint ⟨true, []⟩ ⟨false, false, false, true⟩ "boom").outcome =
      .ok ⟨pyStrip "boom", AIEngine.fallback_response (pyStrip "boom"), false⟩ ∧
    (chat_endpoint ⟨true, []⟩ ⟨false, false, false, true⟩ "boom").genCalls = 1 ∧
    redisLookup (chat_endpoint ⟨true, []⟩ ⟨false, false, false, true⟩ "boom").st.entries
        (generate_cache_key (pyStrip "boom")) =
      some (jsonDumps (AIEngine.fallback_response (pyStrip "boom"))) ∧
    (chat_endpoint (chat_endpoint ⟨true, []⟩ ⟨false, false, false, true⟩ "boom").st
        ⟨false, false, false, true⟩ "boom").outcome =
      .ok ⟨pyStrip "boom", AIEngine.fallback_response (pyStrip "boom"), true⟩ ∧
    (chat_endpoint (chat_endpoint ⟨true, []⟩ ⟨false, false, false, true⟩ "boom").st
        ⟨false, false, false, true⟩ "boom").genCalls = 0 :=
  fallback_returned_and_cached ⟨true, []⟩ "boom" (by decide) (by decide)
    (by decide) rfl rfl

/-- C3: a first chat call on a valid query that misses a connected,
error-free store returns the generated response R with cached = false and
stores it; an immediately following identical call returns cached = true
with the same response R. -/
theorem cache_round_trip_hits (st : RedisState) (q : String)
    (h1 : 1 ≤ q.length) (h2 : q.length ≤ 1000) (hne : pyStrip q ≠ "")
    (hconn : st.connected = true)
    (hmiss : RedisCache.get st (generate_cache_key (pyStrip q)) false = none) :
    (chat_endpoint st ⟨false, false, false, false⟩ q).outcome =
      .ok ⟨pyStrip q, AIEngine.generate_response (pyStrip q), false⟩ ∧
    (chat_endpoint (chat_endpoint st ⟨false, false, false, false⟩ q).st
        ⟨false, false, false, false⟩ q).outcome =
      .ok ⟨pyStrip q, AIEngine.generate_response (pyStrip q), true⟩ := by
  have hchat := chat_endpoint_miss st ⟨false, false, false, false⟩ q h1 h2 hne (Or.inl hmiss)
  have hresp : AIEngine.get_response (pyStrip q) false = AIEngine.generate_response (pyStrip q) := rfl
  have hhit := chat_hit_after_set st ⟨false, false, false, false⟩ q
    (AIEngine.generate_response (pyStrip q)) h1 h2 hne hconn rfl
    (AIEngine.generate_response_ne_empty (pyStrip q))
  rw [hchat, hresp]
  exact ⟨rfl, by rw [hhit]⟩

/-- Witness for C3 at query hello against an empty connected store. -/
theorem cache_round_trip_hits_witness :
    (chat_endpoint ⟨true, []⟩ ⟨false, false, false, false⟩ "hello").outcome =
      .ok ⟨pyStrip "hello", AIEngine.generate_response (pyStrip "hello"), false⟩ ∧
    (chat_endpoint (chat_endpoint ⟨true, []⟩ ⟨false, false, false, false⟩ "hello").st
        ⟨false, false, false, false⟩ "hello").outcome =
      .ok ⟨pyStrip "hello", AIEngine.generate_response (pyStrip "hello"), true⟩ :=
  cache_round_trip_hits ⟨true, []⟩ "hello" (by decide) (by decide) (by decide)
    rfl rfl

/-- C6: delete returns true exactly when the key existed and the call
removed it (in the unavailable and error cases nothing is removed and the
result is false, consistently); through the endpoint, after a store of the
derived key the first invalidation reports a deletion and the immediately
repeated one reports 404. -/
theorem delete_true_iff_existed_and_removed (st : RedisState) (k q v : String)
    (e : Option Nat) (f : Bool) (hconn : st.connected = true) :
    ((RedisCache.delete st k f).2 = true ↔
      (redisLookup st.entries k ≠ none ∧
        redisLookup (RedisCache.delete st k f).1.entries k = none)) ∧
    (delete_cache (RedisCache.set st (generate_cache_key q) v e false).1 false q).1 =
      DeleteOutcome.ok ("Cache deleted for query: " ++ q) ∧
    (delete_cache (delete_cache (RedisCache.set st (generate_cache_key q) v e false).1 false q).2 false q).1 =
      DeleteOutcome.httpError 404 "Query not found in cache" := by
  constructor
  · by_cases hf : f = true
    · simp only [RedisCache.delete, hconn, hf]
      simp
    · simp only [RedisCache.delete, hconn, hf]
      simp [Option.isSome_iff_ne_none, redisLookup_eraseKey_self]
  · have hconn1 : (RedisCache.set st (generate_cache_key q) v e false).1.connected = true := by
      rw [RedisCache.set_connected_eq]
      exact hconn
    have hentries : (RedisCache.set st (generate_cache_key q) v e false).1.entries =
        (generate_cache_key q, jsonDumps v, e.getD CACHE_EXPIRATION) ::
          eraseKey st.entries (generate_cache_key q) := by
      rw [RedisCache.set_connected_ok st (generate_cache_key q) v e hconn]
    have hfound : redisLookup (RedisCache.set st (generate_cache_key q) v e false).1.entries
        (generate_cache_key q) ≠ none := by
      rw [hentries, redisLookup_cons_self]
      exact Option.some_ne_none _
    have hd1 := delete_cache_found (RedisCache.set st (generate_cache_key q) v e false).1
      q hconn1 hfound
    have hd2 := delete_cache_missing
      (⟨(RedisCache.set st (generate_cache_key q) v e false).1.connected,
        eraseKey (RedisCache.set st (generate_cache_key q) v e false).1.entries
          (generate_cache_key q)⟩ : RedisState)
      q hconn1 (redisLookup_eraseKey_self _ _)
    rw [hd1]
    exact ⟨rfl, by rw [hd2]⟩

/-- Witness for C6: store hello, invalidate twice. -/
theorem delete_true_iff_existed_and_removed_witness :
    ((RedisCache.delete ⟨true, []⟩ "chat:hello" false).2 = true ↔
      (redisLookup ([] : List (String × String × Nat)) "chat:hello" ≠ none ∧
        redisLookup (RedisCache.delete ⟨true, []⟩ "chat:hello" false).1.entries "chat:hello" = none)) ∧
    (delete_cache (RedisCache.set ⟨true, []⟩ (generate_cache_key "hello") "R" none false).1 false "hello").1 =
      DeleteOutcome.ok ("Cache deleted for query: " ++ "hello") ∧
    (delete_cache (delete_cache (RedisCache.set ⟨true, []⟩ (generate_cache_key "hello") "R" none false).1 false "hello").2 false "hello").1 =
      DeleteOutcome.httpError 404 "Query not found in cache" :=
  delete_true_iff_existed_and_removed ⟨true, []⟩ "chat:hello" "hello" "R" none false rfl

/-- C8: on a miss with successful generation the handler performs exactly
one store.set; the outcome is the fresh response with cached = false for
every value of the set failure flag (a failed write is swallowed), and
when the write succeeds the entry is stored under the derived key with the
default expiration of 600 seconds. -/
theorem miss_stores_default_ttl_and_returns_fresh (st : RedisState)
    (b : Behavior) (q : String)
    (h1 : 1 ≤ q.length) (h2 : q.length ≤ 1000) (hne : pyStrip q ≠ "")
    (hmiss : RedisCache.get st (generate_cache_key (pyStrip q)) b.redisGetFails = none ∨
      RedisCache.get st (generate_cache_key (pyStrip q)) b.redisGetFails = some "")
    (hgen : b.genFails = false) :
    (chat_endpoint st b q).outcome =
      .ok ⟨pyStrip q, AIEngine.generate_response (pyStrip q), false⟩ ∧
    (chat_endpoint st b q).storeSets = 1 ∧
    (chat_endpoint st b q).st =
      (RedisCache.set st (generate_cache_key (pyStrip q))
        (AIEngine.generate_response (pyStrip q)) none b.redisSetFails).1 ∧
    (st.connected = true → b.redisSetFails = false →
      redisEntry (chat_endpoint st b q).st.entries (generate_cache_key (pyStrip q)) =
        some (jsonDumps (AIEngine.generate_response (pyStrip q)), CACHE_EXPIRATION)) := by
  have hchat := chat_endpoint_miss st b q h1 h2 hne hmiss
  have hresp : AIEngine.get_response (pyStrip q) b.genFails =
      AIEngine.generate_response (pyStrip q) := by
    rw [AIEngine.get_response, hgen]
    simp
  rw [hchat, hresp]
  refine ⟨rfl, rfl, rfl, ?_⟩
  intro hconn hsf
  rw [hsf, RedisCache.set_connected_ok st _ _ none hconn]
  exact redisEntry_cons_self _ _ _ _

/-- Witness for C8 at query hello against an empty connected store with a
succeeding write. -/
theorem miss_stores_default_ttl_and_returns_fresh_witness :
    (chat_endpoint ⟨true, []⟩ ⟨false, false, false, false⟩ "hello").outcome =
      .ok ⟨pyStrip "hello", AIEngine.generate_response (pyStrip "hello"), false⟩ ∧
    (chat_endpoint ⟨true, []⟩ ⟨false, false, false, false⟩ "hello").storeSets = 1 ∧
    (chat_endpoint ⟨true, []⟩ ⟨false, false, false, false⟩ "hello").st =
      (RedisCache.set ⟨true, []⟩ (generate_cache_key (pyStrip "hello"))
        (AIEngine.generate_response (pyStrip "hello")) none
        (Behavior.redisSetFails ⟨false, false, false, false⟩)).1 ∧
    ((⟨true, []⟩ : RedisState).connected = true →
      Behavior.redisSetFails ⟨false, false, false, false⟩ = false →
      redisEntry (chat_endpoint ⟨true, []⟩ ⟨false, false, false, false⟩ "hello").st.entries
          (generate_cache_key (pyStrip "hello")) =
        some (jsonDumps (AIEngine.generate_response (pyStrip "hello")), CACHE_EXPIRATION)) :=
  miss_stores_default_ttl_and_returns_fresh ⟨true, []⟩ ⟨false, false, false, false⟩
    "hello" (by decide) (by decide) (by decide) (Or.inl rfl) rfl

/-- C9: get never raises and treats every fault as absent: a redis error
yields none; a stored raw value that does not decode yields none; a stored
properly serialized value is returned deserialized; a missing key yields
none. -/
theorem get_faults_treated_as_absent (st : RedisState) (k raw v : String)
    (hconn : st.connected = true) :
    RedisCache.get st k true = none ∧
    (redisLookup st.entries k = some raw → jsonLoads raw = none →
      RedisCache.get st k false = none) ∧
    (redisLookup st.entries k = some (jsonDumps v) →
      RedisCache.get st k false = some v) ∧
    (redisLookup st.entries k = none → RedisCache.get st k false = none) := by
  refine ⟨by simp [RedisCache.get, hconn], ?_, ?_, ?_⟩
  · intro hl hj
    rw [RedisCache.get_connected st k hconn, hl]
    by_cases hr : raw = "" <;> simp [hr, hj]
  · intro hl
    rw [RedisCache.get_connected st k hconn, hl]
    simp [jsonDumps_ne_empty, jsonLoads_jsonDumps]
  · intro hl
    rw [RedisCache.get_connected st k hconn, hl]

/-- Witness for C9: a corrupt raw value under key bad is absent both on a
redis error and on the decode failure. -/
theorem get_faults_treated_as_absent_witness :
    RedisCache.get ⟨true, [("bad", "oops", 5)]⟩ "bad" true = none ∧
    (redisLookup ([("bad", "oops", 5)] : List (String × String × Nat)) "bad" = some "oops" →
      jsonLoads "oops" = none →
      RedisCache.get ⟨true, [("bad", "oops", 5)]⟩ "bad" false = none) ∧
    (redisLookup ([("bad", "oops", 5)] : List (String × String × Nat)) "bad" = some (jsonDumps "w") →
      RedisCache.get ⟨true, [("bad", "oops", 5)]⟩ "bad" false = some "w") ∧
    (redisLookup ([("bad", "oops", 5)] : List (String × String × Nat)) "bad" = none →
      RedisCache.get ⟨true, [("bad", "oops", 5)]⟩ "bad" false = none) :=
  get_faults_treated_as_absent ⟨true, [("bad", "oops", 5)]⟩ "bad" "oops" "w" rfl

/-- C10 counterexample: with the serialized empty string stored under the
derived key of query q, the store get path does NOT treat it as a miss: it
returns the deserialized empty string rather than absent. -/
theorem empty_value_get_counterexample :
    RedisCache.get ⟨true, [("chat:q", jsonDumps "", 600)]⟩ "chat:q" false = some "" ∧
    RedisCache.get ⟨true, [("chat:q", jsonDumps "", 600)]⟩ "chat:q" false ≠ none ∧
    generate_cache_key "q" = "chat:q" :=
  ⟨rfl, by decide, rfl⟩

/-- C10 amended: if the value cached under the derived key deserializes to
the empty string, the store get returns that empty string (not absent),
and it is only the chat handler truthiness check that then takes the miss
path: the chat operation returns cached = false and calls the generator
once, even though an entry for the derived key exists. -/
theorem empty_value_is_handler_miss (st : RedisState) (q : String) (t : Nat)
    (h1 : 1 ≤ q.length) (h2 : q.length ≤ 1000) (hne : pyStrip q ≠ "")
    (hconn : st.connected = true)
    (hstored : redisEntry st.entries (generate_cache_key (pyStrip q)) =
      some (jsonDumps "", t)) :
    RedisCache.get st (generate_cache_key (pyStrip q)) false = some "" ∧
    (chat_endpoint st ⟨false, false, false, false⟩ q).outcome =
      .ok ⟨pyStrip q, AIEngine.generate_response (pyStrip q), false⟩ ∧
    (chat_endpoint st ⟨false, false, false, false⟩ q).genCalls = 1 := by
  have hl : redisLookup st.entries (generate_cache_key (pyStrip q)) =
      some (jsonDumps "") := by
    rw [redisLookup, hstored]
    rfl
  have hget : RedisCache.get st (generate_cache_key (pyStrip q)) false = some "" := by
    rw [RedisCache.get_connected _ _ hconn, hl]
    simp [jsonDumps_ne_empty, jsonLoads_jsonDumps]
  have hchat := chat_endpoint_miss st ⟨false, false, false, false⟩ q h1 h2 hne (Or.inr hget)
  refine ⟨hget, ?_, ?_⟩
  · rw [hchat]
    rfl
  · rw [hchat]

/-- Witness for C10 amended: query q with the serialized empty string
already stored under chat:q. -/
theorem empty_value_is_handler_miss_witness :
    RedisCache.get ⟨true, [("chat:q", jsonDumps "", 77)]⟩
        (generate_cache_key (pyStrip "q")) false = some "" ∧
    (chat_endpoint ⟨true, [("chat:q", jsonDumps "", 77)]⟩
        ⟨false, false, false, false⟩ "q").outcome =
      .ok ⟨pyStrip "q", AIEngine.generate_response (pyStrip "q"), false⟩ ∧
    (chat_endpoint ⟨true, [("chat:q", jsonDumps "", 77)]⟩
        ⟨false, false, false, false⟩ "q").genCalls = 1 :=
  empty_value_is_handler_miss ⟨true, [("chat:q", jsonDumps "", 77)]⟩ "q" 77
    (by decide) (by decide) (by decide) rfl (by decide)
